import Mathlib

/-!
Shallow embedding of the `tg_lldap_auth_bot` repository (Deno/TypeScript):
the LLDAP client (`src/lldap.ts`), the privilege-resolution algorithm and
the registration workflow (`src/bot.ts`), together with proofs of the
specification claims about them.

Conventions of the embedding:
* JavaScript numbers used as chat/user/group ids are modelled as `Int`.
* Network calls are modelled by oracles: a pure function from the request
  data to the response the backend would give (`Except String α` models a
  promise that either resolves with `α` or rejects with an `Error` whose
  `message` is the `String`).
* Side effects of a handler (replies, admin reports, directory calls) are
  collected in an explicit event trace, in program order.
-/

namespace TgLldapAuth

/-! ## Chat platform data (Telegram side) -/

/-- Membership states returned by `getChatMember` and enumerated by the
`member_types` table of the configuration schema. -/
inductive ChatMemberStatus where
  | creator
  | administrator
  | member
  | restricted
  | left
  | kicked
deriving DecidableEq

/-- The configured membership-state → weight table (`config.tg.member_types`);
each field defaults to `-1` in the configuration schema, the sentinel for
"no membership/unprivileged". -/
structure MemberTypes where
  creator : Int
  administrator : Int
  member : Int
  restricted : Int
  left : Int
  kicked : Int
deriving DecidableEq

/-- `this.member_types[member_info.status]`: indexing the weight table by a
membership state. -/
def MemberTypes.weight (m : MemberTypes) : ChatMemberStatus → Int
  | .creator => m.creator
  | .administrator => m.administrator
  | .member => m.member
  | .restricted => m.restricted
  | .left => m.left
  | .kicked => m.kicked

/-- One entry of `config.tg.authorized_chats`: a trust domain. -/
structure AuthorizedChat where
  chat : Int
  nickname : String
  ldap_group_id : Option Int
deriving DecidableEq

/-- The part of `config.tg` that `auth_status` and `command_register` read. -/
structure TgCfg where
  authorized_chats : List AuthorizedChat
  member_types : MemberTypes

/-- Telegram chat types distinguished by the handlers. -/
inductive ChatType where
  | group
  | supergroup
  | privateChat
  | channel
deriving DecidableEq

/-- The fields of `ctx.chat` the handlers read. -/
structure ChatInfo where
  type : ChatType
  id : Int
deriving DecidableEq

/-- The fields of `ctx.from` the handlers read. -/
structure UserInfo where
  id : Int
  first_name : String
deriving DecidableEq

/-- Result of `auth_status` in `src/bot.ts`: either
`{status:"privileged", level, granting_chat, granting_chat_nickname}` or
`{status:"none"}`. -/
inductive AuthStatus where
  | privileged (level : Int) (granting_chat : Int) (granting_chat_nickname : String)
  | none
deriving DecidableEq

/-- One step of the running-maximum loop in the private branch of
`auth_status`: the accumulator is `(max_status, max_granted_chat,
max_granted_chat_nickname)` and the update fires on strict `>`. -/
def maxStep (w : AuthorizedChat → Int) (acc : Int × Int × String) (c : AuthorizedChat) :
    Int × Int × String :=
  if w c > acc.1 then (w c, c.chat, c.nickname) else acc

/-- `auth_status(ctx)` from `src/bot.ts`, lines 126–185.  `mem chatId userId`
is the membership state that `bot.api.getChatMember(chatId, userId)` reports
(the chat platform is an external oracle). -/
def auth_status (cfg : TgCfg) (mem : Int → Int → ChatMemberStatus)
    (user? : Option UserInfo) (chat? : Option ChatInfo) : AuthStatus :=
  match user? with
  | Option.none => .none
  | some user =>
    match chat? with
    | Option.none => .none
    | some chat =>
      if chat.type = .group ∨ chat.type = .supergroup then
        match cfg.authorized_chats.find? (fun x => x.chat == chat.id) with
        | Option.none => .none
        | some good_chat =>
          .privileged (cfg.member_types.weight (mem chat.id user.id)) chat.id
            good_chat.nickname
      else if chat.type = .privateChat then
        let st := cfg.authorized_chats.foldl
          (maxStep (fun c => cfg.member_types.weight (mem c.chat user.id)))
          (-1, -1, "")
        if st.1 > 0 then .privileged st.1 st.2.1 st.2.2 else .none
      else .none

/-- Reference formulation of the private branch, following the specification:
take the maximum weight over all configured trust domains (floor `-1`); if it
is positive the result is Privileged at that level for the first domain (in
configuration order) attaining the maximum, otherwise None. -/
def resolveSpecPrivate (cfg : TgCfg) (mem : Int → Int → ChatMemberStatus)
    (userId : Int) : AuthStatus :=
  let w : AuthorizedChat → Int := fun c => cfg.member_types.weight (mem c.chat userId)
  let m := (cfg.authorized_chats.map w).foldl max (-1)
  if m > 0 then
    match cfg.authorized_chats.find? (fun c => w c == m) with
    | some c => .privileged m c.chat c.nickname
    | Option.none => .none
  else .none

/-! ### Characterisation of the running-maximum loop -/

theorem foldl_max_le_init {l : List Int} : ∀ {a : Int}, a ≤ l.foldl max a := by
  induction l with
  | nil => intro a; exact le_refl a
  | cons x xs ih => intro a; exact le_trans (le_max_left a x) ih

theorem foldl_max_attained {l : List Int} : ∀ {a : Int}, a < l.foldl max a →
    ∃ x ∈ l, x = l.foldl max a := by
  induction l with
  | nil => intro a h; exact absurd h (lt_irrefl a)
  | cons x xs ih =>
    intro a h
    rw [List.foldl_cons] at h ⊢
    rcases le_or_lt x a with hxa | hax
    · rw [max_eq_left hxa] at h ⊢
      obtain ⟨y, hy, e⟩ := ih h
      exact ⟨y, List.mem_cons_of_mem _ hy, e⟩
    · rw [max_eq_right hax.le] at h ⊢
      rcases eq_or_lt_of_le (foldl_max_le_init (l := xs) (a := x)) with e | hlt
      · exact ⟨x, List.mem_cons_self _ _, e⟩
      · obtain ⟨y, hy, e⟩ := ih hlt
        exact ⟨y, List.mem_cons_of_mem _ hy, e⟩

theorem foldl_maxStep_fst (w : AuthorizedChat → Int) :
    ∀ (l : List AuthorizedChat) (acc : Int × Int × String),
      (l.foldl (maxStep w) acc).1 = (l.map w).foldl max acc.1 := by
  intro l
  induction l with
  | nil => intro acc; rfl
  | cons c cs ih =>
    intro acc
    rw [List.foldl_cons, List.map_cons, List.foldl_cons, ih]
    congr 1
    unfold maxStep
    split
    · next h => exact (max_eq_right (le_of_lt h)).symm
    · next h => exact (max_eq_left (not_lt.mp h)).symm

theorem foldl_maxStep_stay (w : AuthorizedChat → Int) :
    ∀ (l : List AuthorizedChat) (b : Int) (q : Int × String),
      (l.map w).foldl max b = b → l.foldl (maxStep w) (b, q) = (b, q) := by
  intro l
  induction l with
  | nil => intro b q _; rfl
  | cons c cs ih =>
    intro b q h
    rw [List.map_cons, List.foldl_cons] at h
    have hmax : max b (w c) = b := by
      have h1 : max b (w c) ≤ (cs.map w).foldl max (max b (w c)) := foldl_max_le_init
      have h2 : b ≤ max b (w c) := le_max_left _ _
      omega
    have hwc : w c ≤ b := by
      have := le_max_right b (w c)
      omega
    rw [List.foldl_cons]
    have hstep : maxStep w (b, q) c = (b, q) := by
      unfold maxStep
      rw [if_neg (not_lt.mpr hwc)]
    rw [hstep]
    exact ih b q (by rw [hmax] at h; exact h)

theorem foldl_maxStep_argmax (w : AuthorizedChat → Int) :
    ∀ (l : List AuthorizedChat) (a : Int) (p : Int × String),
      a < (l.map w).foldl max a →
      ∃ c, l.find? (fun c => w c == (l.map w).foldl max a) = some c ∧
        l.foldl (maxStep w) (a, p) = (w c, c.chat, c.nickname) ∧
        w c = (l.map w).foldl max a := by
  intro l
  induction l with
  | nil => intro a p h; exact absurd h (lt_irrefl a)
  | cons c cs ih =>
    intro a p h
    rw [List.map_cons, List.foldl_cons] at h ⊢
    rw [List.foldl_cons]
    rcases le_or_lt (w c) a with hca | hca
    · rw [max_eq_left hca] at h ⊢
      have hstep : maxStep w (a, p) c = (a, p) := by
        unfold maxStep
        rw [if_neg (not_lt.mpr hca)]
      rw [hstep]
      obtain ⟨c', hfind, hfold, he⟩ := ih a p h
      refine ⟨c', ?_, hfold, he⟩
      rw [List.find?_cons]
      have hne : (w c == (cs.map w).foldl max a) = false := by
        have : w c < (cs.map w).foldl max a := lt_of_le_of_lt hca h
        simp [this.ne]
      rw [hne]
      exact hfind
    · rw [max_eq_right hca.le] at h ⊢
      have hstep : maxStep w (a, p) c = (w c, c.chat, c.nickname) := by
        unfold maxStep
        rw [if_pos hca]
      rw [hstep]
      rcases eq_or_lt_of_le (foldl_max_le_init (l := cs.map w) (a := w c)) with e | hlt
      · refine ⟨c, ?_, ?_, e⟩
        · rw [List.find?_cons]
          have : (w c == (cs.map w).foldl max (w c)) = true := by simp [← e]
          rw [this]
        · exact foldl_maxStep_stay w cs (w c) (c.chat, c.nickname) e.symm
      · obtain ⟨c', hfind, hfold, he⟩ := ih (w c) (c.chat, c.nickname) hlt
        refine ⟨c', ?_, hfold, he⟩
        rw [List.find?_cons]
        have hne : (w c == (cs.map w).foldl max (w c)) = false := by
          simp [hlt.ne]
        rw [hne]
        exact hfind

/-- The private branch of `auth_status` agrees with the specification's
formulation `resolveSpecPrivate`. -/
theorem auth_status_private_eq (cfg : TgCfg) (mem : Int → Int → ChatMemberStatus)
    (user : UserInfo) (chatId : Int) :
    auth_status cfg mem (some user) (some ⟨.privateChat, chatId⟩) =
      resolveSpecPrivate cfg mem user.id := by
  unfold auth_status resolveSpecPrivate
  simp only
  rw [if_neg (by simp), if_pos trivial]
  set w : AuthorizedChat → Int := fun c => cfg.member_types.weight (mem c.chat user.id)
  set m : Int := (cfg.authorized_chats.map w).foldl max (-1)
  have hfst : (cfg.authorized_chats.foldl (maxStep w) (-1, -1, "")).1 = m :=
    foldl_maxStep_fst w cfg.authorized_chats (-1, -1, "")
  by_cases hm : m > 0
  · have hm1 : (-1 : Int) < m := by omega
    obtain ⟨c, hfind, hfold, he⟩ :=
      foldl_maxStep_argmax w cfg.authorized_chats (-1) (-1, "") hm1
    rw [hfold]
    rw [if_pos (by simpa [he] using hm)]
    rw [if_pos hm, hfind]
    simp [he]
  · rw [if_neg (by rw [hfst]; exact hm), if_neg hm]

/-- Example configuration for the specification's worked example: trust
domains A (chat 1) and B (chat 2); weight table member → 2,
administrator → 5, everything else the sentinel −1. -/
def cfgAB : TgCfg :=
  { authorized_chats := [⟨1, "A", Option.none⟩, ⟨2, "B", Option.none⟩]
    member_types := ⟨-1, 5, 2, -1, -1, -1⟩ }

/-- Membership oracle for the worked example: the caller is "member" in
chat 1 (domain A) and "administrator" everywhere else (domain B). -/
def memAB : Int → Int → ChatMemberStatus := fun chatId _ =>
  if chatId == 1 then .member else .administrator

/-- C2: in a private/direct context, privilege resolution queries the
caller's membership in every configured trust domain in configuration
order, maps each state through the weight table, keeps a running maximum
under strict `>` (ties keep the first domain), and returns Privileged with
the maximum level and that domain's id and nickname when the maximum
weight is positive, None otherwise; in particular with domains
A(member→2), B(administrator→5) and a caller that is member in A and
administrator in B it returns Privileged, level 5, domain B. -/
theorem C2_resolve_private :
    (∀ (cfg : TgCfg) (mem : Int → Int → ChatMemberStatus) (user : UserInfo) (chatId : Int),
      auth_status cfg mem (some user) (some ⟨.privateChat, chatId⟩) =
        resolveSpecPrivate cfg mem user.id) ∧
    auth_status cfgAB memAB (some ⟨42, "alice"⟩) (some ⟨.privateChat, 99⟩) =
      .privileged 5 2 "B" :=
  ⟨auth_status_private_eq, by decide⟩

/-- Membership oracle reporting "kicked" (sentinel weight −1 in `cfgAB`)
everywhere. -/
def memKicked : Int → Int → ChatMemberStatus := fun _ _ => .kicked

/-- C9: in a group/supergroup context whose chat id is configured,
`auth_status` returns Privileged with the caller's weight-table entry as
level, with no positivity check on the weight (unlike the private branch). -/
theorem C9_group_branch (cfg : TgCfg) (mem : Int → Int → ChatMemberStatus)
    (user : UserInfo) (chat : ChatInfo) (gc : AuthorizedChat)
    (htype : chat.type = .group ∨ chat.type = .supergroup)
    (hfind : cfg.authorized_chats.find? (fun x => x.chat == chat.id) = some gc) :
    auth_status cfg mem (some user) (some chat) =
      .privileged (cfg.member_types.weight (mem chat.id user.id)) chat.id gc.nickname := by
  simp only [auth_status]
  rw [if_pos htype, hfind]

/-- Witness for C9 at a concrete input where the caller is "kicked" in the
authorized group, so the weight is the sentinel −1 ≤ 0 and the result is
still Privileged. -/
theorem C9_group_branch_witness :
    auth_status cfgAB memKicked (some ⟨42, "alice"⟩) (some ⟨.group, 1⟩) =
      .privileged (-1) 1 "A" ∧ (-1 : Int) ≤ 0 :=
  ⟨C9_group_branch cfgAB memKicked ⟨42, "alice"⟩ ⟨.group, 1⟩ ⟨1, "A", Option.none⟩
    (Or.inl rfl) (by decide), by decide⟩

/-! ## LLDAP client (`src/lldap.ts`) -/

/-- `haystack.includes(needle)` on char lists: some contiguous run of
`haystack` equals `pat`. -/
def hasSubList (pat : List Char) : List Char → Bool
  | [] => pat.isEmpty
  | c :: rest => pat.isPrefixOf (c :: rest) || hasSubList pat rest

/-- JavaScript's `String.prototype.includes`. -/
def strIncludes (s pat : String) : Bool := hasSubList pat.data s.data

/-- The data of a `GetUserFromId` GraphQL response:
`{id, email, attributes:[{name.value}]}`. -/
structure GetUserResp where
  id : String
  email : String
  attributes : List (String × String)
deriving DecidableEq

/-- The record `get_user_by_id` resolves with:
`{id, telegram_id?, email}`. -/
structure DirUser where
  id : String
  telegram_id : Option String
  email : String
deriving DecidableEq

/-- `LldapClient.get_user_by_id` (`src/lldap.ts` lines 66–106), as a function
of the GraphQL transport outcome for its one request: on a successful
response it extracts the `telegram_id` attribute and resolves with the user;
a thrown error whose message contains "Entity not found" is translated to
`null`; any other thrown error is rethrown. -/
def get_user_by_id (resp : Except String GetUserResp) : Except String (Option DirUser) :=
  match resp with
  | .ok r =>
    .ok (some
      { id := r.id
        telegram_id := (r.attributes.find? (fun attr => attr.1 == "telegram_id")).map
          (fun attr => attr.2)
        email := r.email })
  | .error msg =>
    if strIncludes msg "Entity not found" then .ok Option.none else .error msg

/-- `LldapClient.get_user_by_telegram_id` (lines 108–127): empty result set
means `null`, otherwise the first id; transport errors are not caught. -/
def get_user_by_telegram_id (resp : Except String (List String)) :
    Except String (Option String) :=
  match resp with
  | .error e => .error e
  | .ok [] => .ok Option.none
  | .ok (u :: _) => .ok (some u)

/-- `LldapClient.create_user` (lines 129–155): resolves with the
backend-assigned uuid; transport errors are not caught. -/
def create_user (resp : Except String String) : Except String String := resp

/-- `LldapClient.add_to_group` (lines 157–171): the response carries an
explicit `ok` flag, and `ok:false` is converted into a thrown error naming
the user and the group. -/
def add_to_group (user_id : String) (group_id : Int) (resp : Except String Bool) :
    Except String Unit :=
  match resp with
  | .error e => .error e
  | .ok true => .ok ()
  | .ok false =>
    .error ("Failed to add user " ++ user_id ++ " to group " ++ toString group_id)

/-- C3: `lookupById` resolves with the matching user on a successful
response; a transport-level error carrying the "Entity not found" marker is
translated to None (so a lookup of a nonexistent identifier returns None and
never raises), and any other error propagates unchanged. -/
theorem C3_lookup_not_found (r : GetUserResp) (msg : String) :
    (∃ u : DirUser, get_user_by_id (.ok r) = .ok (some u) ∧
      u.id = r.id ∧ u.email = r.email) ∧
    (strIncludes msg "Entity not found" = true →
      get_user_by_id (.error msg) = .ok Option.none) ∧
    (strIncludes msg "Entity not found" = false →
      get_user_by_id (.error msg) = .error msg) := by
  refine ⟨⟨_, rfl, rfl, rfl⟩, fun h => ?_, fun h => ?_⟩
  · simp [get_user_by_id, h]
  · simp [get_user_by_id, h]

/-- Witness for C3: a backend "Entity not found" error yields None, an
unrelated error propagates unchanged. -/
theorem C3_lookup_not_found_witness :
    get_user_by_id (.error "Entity not found: \"bob\"") = .ok Option.none ∧
    get_user_by_id (.error "Internal server error") = .error "Internal server error" :=
  ⟨(C3_lookup_not_found ⟨"", "", []⟩ "Entity not found: \"bob\"").2.1 (by decide),
   (C3_lookup_not_found ⟨"", "", []⟩ "Internal server error").2.2 (by decide)⟩

/-! ## Credential manager (`AuthManager` in `src/lldap.ts`) -/

/-- The session state: `AuthManager.token`. -/
structure AuthState where
  token : Option String
deriving DecidableEq

/-- Outcome of `res.json()` for the login response body. -/
inductive JsonOutcome where
  | jsonFail (e : String)
  | jsonOk (token : String)
deriving DecidableEq

/-- Outcome of the `fetch` of the login endpoint. -/
inductive FetchResult where
  | thrown (e : String)
  | response (ok : Bool) (body : JsonOutcome)
deriving DecidableEq

/-- `AuthManager.login` (`src/lldap.ts` lines 21–37) as a state transformer:
a rejected `fetch` propagates; a non-ok response throws "Failed to login"; a
failing `res.json()` propagates; only after all of those succeed is
`this.token` assigned. The second component is the thrown error, if any. -/
def login (st : AuthState) (r : FetchResult) : AuthState × Option String :=
  match r with
  | .thrown e => (st, some e)
  | .response ok body =>
    if !ok then (st, some "Failed to login")
    else
      match body with
      | .jsonFail e => (st, some e)
      | .jsonOk tok => ({ token := some tok }, Option.none)

/-- C6: for every prior session state, `login` fails on a non-success
response or a transport failure and leaves the stored token unchanged; it
succeeds exactly on an ok response with a parsed body, and only then is the
token replaced. -/
theorem C6_login_token (st : AuthState) (r : FetchResult) :
    ((login st r).2 ≠ Option.none → (login st r).1 = st) ∧
    ((login st r).2 = Option.none ↔ ∃ tok, r = .response true (.jsonOk tok)) ∧
    (∀ tok, login st (.response true (.jsonOk tok)) = (⟨some tok⟩, Option.none)) := by
  refine ⟨?_, ?_, fun tok => rfl⟩
  · intro h
    match r with
    | .thrown e => rfl
    | .response false body => rfl
    | .response true (.jsonFail e) => rfl
    | .response true (.jsonOk tok) => exact absurd rfl h
  · constructor
    · intro h
      match r with
      | .thrown e => exact absurd h (by simp [login])
      | .response false body => exact absurd h (by simp [login])
      | .response true (.jsonFail e) => exact absurd h (by simp [login])
      | .response true (.jsonOk tok) => exact ⟨tok, rfl⟩
    · rintro ⟨tok, rfl⟩
      rfl

/-- Witness for C6: a transport failure keeps the old token; a successful
response replaces it. -/
theorem C6_login_token_witness :
    (login ⟨some "old"⟩ (.thrown "ECONNREFUSED")).1 = ⟨some "old"⟩ ∧
    login ⟨some "old"⟩ (.response true (.jsonOk "new")) = (⟨some "new"⟩, Option.none) :=
  ⟨(C6_login_token ⟨some "old"⟩ (.thrown "ECONNREFUSED")).1 (by decide),
   (C6_login_token ⟨some "old"⟩ (.thrown "ECONNREFUSED")).2.2 "new"⟩

/-- C7: `add_to_group` succeeds exactly when the response's explicit flag is
true; `ok:false` is converted into an error whose message names both the
user id and the group id. -/
theorem C7_add_to_group_flag (u : String) (g : Int) :
    add_to_group u g (.ok true) = .ok () ∧
    (∃ m, add_to_group u g (.ok false) = .error m ∧
      u.data <:+: m.data ∧ (toString g).data <:+: m.data) := by
  refine ⟨rfl, "Failed to add user " ++ u ++ " to group " ++ toString g, rfl, ?_, ?_⟩
  · exact ⟨"Failed to add user ".data,
      " to group ".data ++ (toString g).data, by simp [String.data_append]⟩
  · exact ⟨"Failed to add user ".data ++ u.data ++ " to group ".data, [],
      by simp [String.data_append]⟩

/-! ## Backend directory state, for the create-then-lookup round trip -/

/-- Modelled from the spec: the directory backend itself is an external
service, not code of this repository; §6 gives its schema contract.
`CreateUser(id, email, telegramId)` rejects when the id already exists
(uniqueness violation) and otherwise stores a user whose `telegram_id`
attribute is pre-populated, answering with an opaque uuid. -/
def backendCreateUser (st : List GetUserResp) (tgId uid email : String) :
    List GetUserResp × Except String String :=
  if st.any (fun u => u.id == uid) then
    (st, .error ("Error creating user " ++ uid))
  else
    (⟨uid, email, [("telegram_id", tgId)]⟩ :: st, .ok ("uuid-" ++ uid))

/-- Modelled from the spec: §6's `GetUserFromId` contract — the stored user,
or an error payload carrying the "Entity not found" marker. -/
def backendGetUserFromId (st : List GetUserResp) (uid : String) :
    Except String GetUserResp :=
  match st.find? (fun u => u.id == uid) with
  | some u => .ok u
  | Option.none => .error ("Entity not found: " ++ uid)

/-- C8: a successful `create_user(tgId, uid, email)` followed immediately by
`get_user_by_id(uid)` (no intervening mutation) returns a user whose id and
email equal the arguments and whose `telegram_id` attribute equals the
external identity passed to `create_user`. -/
theorem C8_create_then_lookup (st : List GetUserResp) (tgId uid email uuid : String)
    (h : create_user (backendCreateUser st tgId uid email).2 = .ok uuid) :
    get_user_by_id (backendGetUserFromId (backendCreateUser st tgId uid email).1 uid) =
      .ok (some ⟨uid, some tgId, email⟩) := by
  unfold create_user at h
  unfold backendCreateUser at h ⊢
  by_cases hdup : st.any (fun u => u.id == uid)
  · rw [if_pos hdup] at h
    exact absurd h (by simp)
  · rw [if_neg hdup]
    unfold backendGetUserFromId
    rw [List.find?_cons, show ((⟨uid, email, [("telegram_id", tgId)]⟩ :
      GetUserResp).id == uid) = true by simp]
    unfold get_user_by_id
    simp [List.find?_cons]

/-- Witness for C8: creating "alice" in an empty directory and looking her
up returns her id, telegram id and email. -/
theorem C8_create_then_lookup_witness :
    get_user_by_id (backendGetUserFromId (backendCreateUser [] "7" "alice" "a@b.co").1
      "alice") = .ok (some ⟨"alice", some "7", "a@b.co"⟩) :=
  C8_create_then_lookup [] "7" "alice" "a@b.co" "uuid-alice" rfl

/-! ## Registration workflow (`command_register` in `src/bot.ts`) -/

/-- Auxiliary for `splitChar`: the accumulator holds the current piece
reversed. -/
def splitCharAux (sep : Char) : List Char → List Char → List String
  | [], acc => [String.mk acc.reverse]
  | c :: rest, acc =>
    if c = sep then String.mk acc.reverse :: splitCharAux sep rest []
    else splitCharAux sep rest (c :: acc)

/-- JavaScript `s.split(sep)` for a single-character separator: empty pieces
are kept, `"".split(sep)` is `[""]`. -/
def splitChar (sep : Char) (s : String) : List String := splitCharAux sep s.data []

/-- One character of the class `[a-zA-Z0-9_]`. -/
def wordChar (c : Char) : Bool :=
  (decide ('a' ≤ c) && decide (c ≤ 'z')) || (decide ('A' ≤ c) && decide (c ≤ 'Z')) ||
    (decide ('0' ≤ c) && decide (c ≤ '9')) || c == '_'

/-- The username test `/^[a-zA-Z0-9_]{3,32}$/.test(username)`
(bot.ts line 218). -/
def usernameOk (s : String) : Bool :=
  decide (3 ≤ s.length) && decide (s.length ≤ 32) && s.data.all wordChar

/-- Declarative reading of the username pattern `^[a-zA-Z0-9_]{3,32}$`:
between 3 and 32 characters, each a letter, digit or underscore. -/
def UsernamePat (s : String) : Prop :=
  3 ≤ s.length ∧ s.length ≤ 32 ∧
    ∀ c ∈ s.data, ('a' ≤ c ∧ c ≤ 'z') ∨ ('A' ≤ c ∧ c ≤ 'Z') ∨ ('0' ≤ c ∧ c ≤ '9') ∨ c = '_'

instance (s : String) : Decidable (UsernamePat s) := by
  unfold UsernamePat
  infer_instance

theorem usernameOk_iff (s : String) : usernameOk s = true ↔ UsernamePat s := by
  unfold usernameOk UsernamePat wordChar
  simp [List.all_eq_true, and_assoc, or_assoc]

/-- One character of the email local-part class `[a-zA-Z0-9._%+-]`. -/
def emailLocalChar (c : Char) : Bool :=
  (decide ('a' ≤ c) && decide (c ≤ 'z')) || (decide ('A' ≤ c) && decide (c ≤ 'Z')) ||
    (decide ('0' ≤ c) && decide (c ≤ '9')) || c == '.' || c == '_' || c == '%' ||
    c == '+' || c == '-'

/-- One character of the email domain class `[a-zA-Z0-9.-]`. -/
def emailDomainChar (c : Char) : Bool :=
  (decide ('a' ≤ c) && decide (c ≤ 'z')) || (decide ('A' ≤ c) && decide (c ≤ 'Z')) ||
    (decide ('0' ≤ c) && decide (c ≤ '9')) || c == '.' || c == '-'

/-- An ASCII letter, `[a-zA-Z]`. -/
def asciiLetter (c : Char) : Bool :=
  (decide ('a' ≤ c) && decide (c ≤ 'z')) || (decide ('A' ≤ c) && decide (c ≤ 'Z'))

/-- The email test `/^[a-zA-Z0-9._%+-]+@[a-zA-Z0-9.-]+\.[a-zA-Z]{2,}$/.test(email)`
(bot.ts line 221): exactly one `@`, a nonempty local part over its class,
and a domain splitting at its last dot into a nonempty part over the domain
class and a top-level label of at least two letters. -/
def emailOk (s : String) : Bool :=
  match splitChar '@' s with
  | [l, r] =>
    (!l.data.isEmpty) && l.data.all emailLocalChar &&
      (let parts := splitChar '.' r
       decide (2 ≤ parts.length) &&
         (let t := parts.getLastD ""
          decide (2 ≤ t.length) && t.data.all asciiLetter) &&
         (let d := String.intercalate "." parts.dropLast
          (!d.data.isEmpty) && d.data.all emailDomainChar))
  | _ => false

/-- Observable actions of the registration handler, in program order:
replies to the caller, reports to the admin chat, and LLDAP directory
calls. -/
inductive Event where
  | reply (msg : String)
  | report (msg : String)
  | reportError (msg : String)
  | lookupById (id : String)
  | lookupByTelegramId (tgId : String)
  | createUser (tgId id email : String)
  | addToGroup (id : String) (groupId : Int)
deriving DecidableEq

/-- Directory mutations among the events. -/
def Event.isMutation : Event → Bool
  | .createUser _ _ _ => true
  | .addToGroup _ _ => true
  | _ => false

/-- Oracle for the LLDAP backend: the transport outcome of each GraphQL
request the handler can issue. -/
structure Backend where
  getUserFromId : String → Except String GetUserResp
  getUsersFromTelegramId : String → Except String (List String)
  createUser : String → String → String → Except String String
  addUserToGroup : String → Int → Except String Bool

/-- Outcome of a command handler: normal completion, or a thrown
`CommandArgsError` (caught by the per-command wrapper, which renders a usage
hint). -/
inductive RegResult where
  | done
  | argsError (msg : String)
deriving DecidableEq

def alreadyExistsMsg (username : String) : String :=
  "User <b>" ++ username ++ "</b> already exists."

def alreadyConnectedMsg (uid : String) : String :=
  "This telegram account is already connected to user <b>" ++ uid ++ "</b>."

def registeredMsg (username login_url : String) : String :=
  "User <b>" ++ username ++ "</b> has been registered.\n\nPlease go to " ++ login_url ++
    " and use the \"Reset Password\" feature to set your password."

def registeredReportMsg (username escapedName : String) (userId chatId : Int) : String :=
  "User <b>" ++ username ++ "</b> has been registered by " ++ escapedName ++ "(" ++
    toString userId ++ ") in chat " ++ toString chatId

def addedToGroupMsg (username nickname : String) : String :=
  "User <b>" ++ username ++ "</b> has been added to a group " ++
    "because you are in chat <b>" ++ nickname ++ "</b>"

def lldapErrorMsg : String :=
  "LLDAP server had an error. Please contact the administrator."

/-- The callback `Promise.all` maps over `authorized_chats` (bot.ts lines
255–276), for one trust domain: skip when the caller's weight there is ≤ 0
or when the domain has no LLDAP group; otherwise call `add_to_group` and, on
success, notify the caller. Returns the domain's events and its rejection,
if any. -/
def domainAttach (cfg : TgCfg) (mem : Int → Int → ChatMemberStatus) (backend : Backend)
    (username : String) (userId : Int) (c : AuthorizedChat) :
    List Event × Option String :=
  if cfg.member_types.weight (mem c.chat userId) ≤ 0 then ([], Option.none)
  else
    match c.ldap_group_id with
    | Option.none => ([], Option.none)
    | some g =>
      match add_to_group username g (backend.addUserToGroup username g) with
      | .ok _ =>
        ([.addToGroup username g, .reply (addedToGroupMsg username c.nickname)], Option.none)
      | .error e => ([.addToGroup username g], some e)

/-- `await Promise.all(this.config.authorized_chats.map(async (chat) => …))`:
every domain's callback runs — its calls happen regardless of the other
domains — and the combined promise rejects with the first rejection, if
any. -/
def groupPhase (cfg : TgCfg) (mem : Int → Int → ChatMemberStatus) (backend : Backend)
    (username : String) (userId : Int) : List Event × Option String :=
  ((cfg.authorized_chats.map fun c =>
      (domainAttach cfg mem backend username userId c).1).flatten,
   cfg.authorized_chats.findSome? fun c =>
      (domainAttach cfg mem backend username userId c).2)

/-- The behaviour claim C1 describes, stated from the specification's words
rather than from the source: domains processed sequentially in
configuration order, a failure in one aborting all remaining domains. -/
def groupPhaseSeq (cfg : TgCfg) (mem : Int → Int → ChatMemberStatus) (backend : Backend)
    (username : String) (userId : Int) : List AuthorizedChat → List Event × Option String
  | [] => ([], Option.none)
  | c :: rest =>
    match domainAttach cfg mem backend username userId c with
    | (evs, Option.none) =>
      let r := groupPhaseSeq cfg mem backend username userId rest
      (evs ++ r.1, r.2)
    | (evs, some e) => (evs, some e)

/-- The body of the `try` block of `command_register` (bot.ts lines
225–276): duplicate checks, creation, success replies, group attachment.
The second component is the rejection reaching the outer `catch`, if
any. -/
def registerTryBody (cfg : TgCfg) (login_url : String) (esc : String → String)
    (mem : Int → Int → ChatMemberStatus) (backend : Backend)
    (user : UserInfo) (chat : ChatInfo) (username email : String) :
    List Event × Option String :=
  match get_user_by_id (backend.getUserFromId username) with
  | .error e => ([.lookupById username], some e)
  | .ok (some _) =>
    ([.lookupById username, .reply (alreadyExistsMsg username)], Option.none)
  | .ok Option.none =>
    match get_user_by_telegram_id (backend.getUsersFromTelegramId (toString user.id)) with
    | .error e => ([.lookupById username, .lookupByTelegramId (toString user.id)], some e)
    | .ok (some existing) =>
      ([.lookupById username, .lookupByTelegramId (toString user.id),
        .reply (alreadyConnectedMsg existing)], Option.none)
    | .ok Option.none =>
      match create_user (backend.createUser (toString user.id) username email) with
      | .error e =>
        ([.lookupById username, .lookupByTelegramId (toString user.id),
          .createUser (toString user.id) username email], some e)
      | .ok _ =>
        let g := groupPhase cfg mem backend username user.id
        ([.lookupById username, .lookupByTelegramId (toString user.id),
          .createUser (toString user.id) username email,
          .reply (registeredMsg username login_url),
          .report (registeredReportMsg username (esc user.first_name) user.id chat.id)]
          ++ g.1, g.2)

/-- The `try`/`catch` of `command_register`: a rejection anywhere inside the
body is caught once at the bottom, replaced with a generic caller-facing
message, and reported in full to the admin sink. -/
def registerTry (cfg : TgCfg) (login_url : String) (esc : String → String)
    (mem : Int → Int → ChatMemberStatus) (backend : Backend)
    (user : UserInfo) (chat : ChatInfo) (username email : String) :
    List Event × RegResult :=
  match registerTryBody cfg login_url esc mem backend user chat username email with
  | (evs, Option.none) => (evs, .done)
  | (evs, some e) => (evs ++ [.reply lldapErrorMsg, .reportError e], .done)

/-- `command_register(ctx)` (bot.ts lines 200–281). `esc` is the external
`escapeHtml` collaborator and `login_url` is `config.help_text.login_url`. -/
def command_register (cfg : TgCfg) (login_url : String) (esc : String → String)
    (mem : Int → Int → ChatMemberStatus) (backend : Backend)
    (user? : Option UserInfo) (chat? : Option ChatInfo) (text? : Option String) :
    List Event × RegResult :=
  match user? with
  | Option.none => ([.reply "You are not identified as a telegram user"], .done)
  | some user =>
    match chat? with
    | Option.none => ([], .argsError "Use this command in a private chat.")
    | some chat =>
      if chat.type ≠ .privateChat then ([], .argsError "Use this command in a private chat.")
      else
        match auth_status cfg mem (some user) (some chat) with
        | .none => ([.reply "You are not privileged to use this command"], .done)
        | .privileged _ _ _ =>
          match text? with
          | Option.none => ([], .argsError "Invalid number of arguments")
          | some text =>
            match splitChar ' ' text with
            | [_, username, email] =>
              if !usernameOk username then ([], .argsError "Invalid username")
              else if !emailOk email then ([], .argsError "Invalid email")
              else registerTry cfg login_url esc mem backend user chat username email
            | _ => ([], .argsError "Invalid number of arguments")

/-- The try/catch wrapper never turns a rejection into a thrown
`CommandArgsError`: its result is always normal completion. -/
theorem registerTry_snd (cfg : TgCfg) (login_url : String) (esc : String → String)
    (mem : Int → Int → ChatMemberStatus) (backend : Backend)
    (user : UserInfo) (chat : ChatInfo) (username email : String) :
    (registerTry cfg login_url esc mem backend user chat username email).2 = .done := by
  unfold registerTry
  rcases h : registerTryBody cfg login_url esc mem backend user chat username email
    with ⟨evs, err⟩
  cases err with
  | none => rfl
  | some e => rfl

/-- Normal form of `command_register` for an identified caller in a private
chat with a privileged status: what remains is argument splitting,
validation and the try block. -/
theorem command_register_privileged (cfg : TgCfg) (login_url : String)
    (esc : String → String) (mem : Int → Int → ChatMemberStatus) (backend : Backend)
    (user : UserInfo) (chatId : Int) (text : String) (l g : Int) (n : String)
    (hpriv : auth_status cfg mem (some user) (some ⟨.privateChat, chatId⟩) =
      .privileged l g n) :
    command_register cfg login_url esc mem backend (some user)
        (some ⟨.privateChat, chatId⟩) (some text) =
      match splitChar ' ' text with
      | [_, username, email] =>
        if !usernameOk username then ([], .argsError "Invalid username")
        else if !emailOk email then ([], .argsError "Invalid email")
        else registerTry cfg login_url esc mem backend user ⟨.privateChat, chatId⟩
          username email
      | _ => ([], .argsError "Invalid number of arguments") := by
  simp only [command_register]
  rw [if_neg (by simp), hpriv]

/-- C10: with an identified caller, a private chat and a privileged status,
the registration command throws the `CommandArgsError` "Invalid number of
arguments" — with an empty event trace, hence before any validation, lookup
or directory mutation — exactly when splitting the raw message text on
single space characters does not yield three tokens. -/
theorem C10_arg_count (cfg : TgCfg) (login_url : String) (esc : String → String)
    (mem : Int → Int → ChatMemberStatus) (backend : Backend) (user : UserInfo)
    (chatId : Int) (text : String) (l g : Int) (n : String)
    (hpriv : auth_status cfg mem (some user) (some ⟨.privateChat, chatId⟩) =
      .privileged l g n) :
    ((splitChar ' ' text).length ≠ 3 →
      command_register cfg login_url esc mem backend (some user)
          (some ⟨.privateChat, chatId⟩) (some text) =
        ([], .argsError "Invalid number of arguments")) ∧
    ((splitChar ' ' text).length = 3 →
      (command_register cfg login_url esc mem backend (some user)
          (some ⟨.privateChat, chatId⟩) (some text)).2 ≠
        .argsError "Invalid number of arguments") := by
  rw [command_register_privileged cfg login_url esc mem backend user chatId text l g n hpriv]
  constructor
  · intro h
    rcases hs : splitChar ' ' text with _ | ⟨a, _ | ⟨b, _ | ⟨c, _ | ⟨d, rest⟩⟩⟩⟩
    · rfl
    · rfl
    · rfl
    · rw [hs] at h
      simp at h
    · rfl
  · intro h
    rcases hs : splitChar ' ' text with _ | ⟨a, _ | ⟨b, _ | ⟨c, _ | ⟨d, rest⟩⟩⟩⟩ <;>
      rw [hs] at h <;> try simp at h
    dsimp only
    split_ifs with h1 h2
    · simp
    · simp
    · rw [registerTry_snd]
      simp

/-- A backend where no user and no telegram link exists yet; creation and
group attachment succeed. -/
def backendEmpty : Backend :=
  { getUserFromId := fun uid => .error ("Entity not found: " ++ uid)
    getUsersFromTelegramId := fun _ => .ok []
    createUser := fun _ uid _ => .ok ("uuid-" ++ uid)
    addUserToGroup := fun _ _ => .ok true }

/-- Stand-in for the external `escapeHtml` collaborator in concrete runs. -/
def escId : String → String := fun s => s

/-- Witness for C10 at concrete inputs: consecutive spaces between the
arguments, or an extra trailing token, make the split yield ≠ 3 tokens and
the command fails with an empty trace; a clean three-token input does not
trigger this error. -/
theorem C10_arg_count_witness :
    command_register cfgAB "url" escId memAB backendEmpty (some ⟨42, "alice"⟩)
        (some ⟨.privateChat, 99⟩) (some "/register alice  a@b.co") =
      ([], .argsError "Invalid number of arguments") ∧
    command_register cfgAB "url" escId memAB backendEmpty (some ⟨42, "alice"⟩)
        (some ⟨.privateChat, 99⟩) (some "/register alice a@b.co x") =
      ([], .argsError "Invalid number of arguments") ∧
    (command_register cfgAB "url" escId memAB backendEmpty (some ⟨42, "alice"⟩)
        (some ⟨.privateChat, 99⟩) (some "/register alice a@b.co")).2 ≠
      .argsError "Invalid number of arguments" :=
  ⟨(C10_arg_count cfgAB "url" escId memAB backendEmpty ⟨42, "alice"⟩ 99
      "/register alice  a@b.co" 5 2 "B" (by decide)).1 (by decide),
   (C10_arg_count cfgAB "url" escId memAB backendEmpty ⟨42, "alice"⟩ 99
      "/register alice a@b.co x" 5 2 "B" (by decide)).1 (by decide),
   (C10_arg_count cfgAB "url" escId memAB backendEmpty ⟨42, "alice"⟩ 99
      "/register alice a@b.co" 5 2 "B" (by decide)).2 (by decide)⟩

/-- C4: in a private context with a privileged caller and a three-token
argument list, the workflow throws the `CommandArgsError` "Invalid
username" exactly when the candidate username fails `^[a-zA-Z0-9_]{3,32}$`
(this check comes first), and, once the username matches, throws "Invalid
email" exactly when the email fails the address pattern. -/
theorem C4_validation (cfg : TgCfg) (login_url : String) (esc : String → String)
    (mem : Int → Int → ChatMemberStatus) (backend : Backend) (user : UserInfo)
    (chatId : Int) (text cmd username email : String) (l g : Int) (n : String)
    (hpriv : auth_status cfg mem (some user) (some ⟨.privateChat, chatId⟩) =
      .privileged l g n)
    (hsplit : splitChar ' ' text = [cmd, username, email]) :
    (command_register cfg login_url esc mem backend (some user)
        (some ⟨.privateChat, chatId⟩) (some text) =
      ([], .argsError "Invalid username") ↔ ¬ UsernamePat username) ∧
    (UsernamePat username →
      (command_register cfg login_url esc mem backend (some user)
          (some ⟨.privateChat, chatId⟩) (some text) =
        ([], .argsError "Invalid email") ↔ emailOk email = false)) := by
  rw [command_register_privileged cfg login_url esc mem backend user chatId text l g n
    hpriv, hsplit]
  dsimp only
  have hTrySnd := registerTry_snd cfg login_url esc mem backend user
    ⟨.privateChat, chatId⟩ username email
  by_cases hu : usernameOk username = true
  · have hpat : UsernamePat username := (usernameOk_iff username).mp hu
    rw [hu]
    by_cases he : emailOk email = true
    · rw [he]
      rw [if_neg (by simp), if_neg (by simp)]
      constructor
      · constructor
        · intro h
          rw [h] at hTrySnd
          simp at hTrySnd
        · intro hnp
          exact absurd hpat hnp
      · intro _
        constructor
        · intro h
          rw [h] at hTrySnd
          simp at hTrySnd
        · intro hf
          cases hf
    · rw [Bool.not_eq_true] at he
      rw [he]
      rw [if_neg (by simp), if_pos (by simp)]
      constructor
      · constructor
        · intro h
          have h2 := congrArg Prod.snd h
          simp at h2
        · intro hnp
          exact absurd hpat hnp
      · intro _
        simp [he]
  · rw [Bool.not_eq_true] at hu
    have hnpat : ¬ UsernamePat username := fun hp =>
      by rw [(usernameOk_iff username).mpr hp] at hu; cases hu
    rw [hu]
    rw [if_pos (by simp)]
    constructor
    · simp [hnpat]
    · intro hp
      exact absurd hp hnpat

/-- Witness for C4: a two-character username is rejected with the
`CommandArgsError` "Invalid username"; with a valid username, a malformed
email is rejected with "Invalid email". -/
theorem C4_validation_witness :
    command_register cfgAB "url" escId memAB backendEmpty (some ⟨42, "alice"⟩)
        (some ⟨.privateChat, 99⟩) (some "/register ab a@b.co") =
      ([], .argsError "Invalid username") ∧
    command_register cfgAB "url" escId memAB backendEmpty (some ⟨42, "alice"⟩)
        (some ⟨.privateChat, 99⟩) (some "/register alice nomail") =
      ([], .argsError "Invalid email") :=
  ⟨(C4_validation cfgAB "url" escId memAB backendEmpty ⟨42, "alice"⟩ 99
      "/register ab a@b.co" "/register" "ab" "a@b.co" 5 2 "B" (by decide)
      (by decide)).1.mpr (by decide),
   ((C4_validation cfgAB "url" escId memAB backendEmpty ⟨42, "alice"⟩ 99
      "/register alice nomail" "/register" "alice" "nomail" 5 2 "B" (by decide)
      (by decide)).2 (by decide)).mpr (by decide)⟩

/-- C5: when a duplicate check fires — the candidate username already
exists, or the caller's telegram account is already linked to a user — the
workflow completes normally with the corresponding user-facing message,
raises no error, and performs no directory mutation: its trace holds no
`createUser` and no `addToGroup` call. -/
theorem C5_duplicate_no_mutation (cfg : TgCfg) (login_url : String)
    (esc : String → String) (mem : Int → Int → ChatMemberStatus) (backend : Backend)
    (user : UserInfo) (chatId : Int) (text cmd username email : String)
    (l g : Int) (n : String)
    (hpriv : auth_status cfg mem (some user) (some ⟨.privateChat, chatId⟩) =
      .privileged l g n)
    (hsplit : splitChar ' ' text = [cmd, username, email])
    (hu : usernameOk username = true) (he : emailOk email = true) :
    (∀ du, get_user_by_id (backend.getUserFromId username) = .ok (some du) →
      ∃ tr, command_register cfg login_url esc mem backend (some user)
          (some ⟨.privateChat, chatId⟩) (some text) = (tr, .done) ∧
        tr = [.lookupById username, .reply (alreadyExistsMsg username)] ∧
        tr.all (fun ev => !ev.isMutation) = true) ∧
    (∀ existing, get_user_by_id (backend.getUserFromId username) = .ok Option.none →
      get_user_by_telegram_id (backend.getUsersFromTelegramId (toString user.id)) =
        .ok (some existing) →
      ∃ tr, command_register cfg login_url esc mem backend (some user)
          (some ⟨.privateChat, chatId⟩) (some text) = (tr, .done) ∧
        tr = [.lookupById username, .lookupByTelegramId (toString user.id),
          .reply (alreadyConnectedMsg existing)] ∧
        tr.all (fun ev => !ev.isMutation) = true) := by
  rw [command_register_privileged cfg login_url esc mem backend user chatId text l g n
    hpriv, hsplit]
  dsimp only
  rw [hu, he]
  rw [if_neg (by simp), if_neg (by simp)]
  unfold registerTry registerTryBody
  constructor
  · intro du hdup
    rw [hdup]
    exact ⟨_, rfl, rfl, by simp [Event.isMutation]⟩
  · intro existing hnone hlink
    rw [hnone, hlink]
    exact ⟨_, rfl, rfl, by simp [Event.isMutation]⟩

/-- A backend that already stores the user "alice" with no linked telegram
account. -/
def backendHasAlice : Backend :=
  { getUserFromId := fun uid =>
      if uid == "alice" then .ok ⟨"alice", "a@b.co", []⟩
      else .error ("Entity not found: " ++ uid)
    getUsersFromTelegramId := fun _ => .ok []
    createUser := fun _ uid _ => .ok ("uuid-" ++ uid)
    addUserToGroup := fun _ _ => .ok true }

/-- Witness for C5: registering the already-existing "alice" replies
"already exists", completes normally, and mutates nothing. -/
theorem C5_duplicate_no_mutation_witness :
    ∃ tr, command_register cfgAB "url" escId memAB backendHasAlice (some ⟨42, "alice"⟩)
        (some ⟨.privateChat, 99⟩) (some "/register alice a@b.co") = (tr, .done) ∧
      tr = [.lookupById "alice", .reply (alreadyExistsMsg "alice")] ∧
      tr.all (fun ev => !ev.isMutation) = true :=
  (C5_duplicate_no_mutation cfgAB "url" escId memAB backendHasAlice ⟨42, "alice"⟩ 99
    "/register alice a@b.co" "/register" "alice" "a@b.co" 5 2 "B" (by decide) (by decide)
    (by decide) (by decide)).1 ⟨"alice", Option.none, "a@b.co"⟩ rfl

/-- Two trust domains, both carrying an LLDAP group (10 for A, 20 for B);
weight table as in `cfgAB`. -/
def cfgTwoGroups : TgCfg :=
  { authorized_chats := [⟨1, "A", some 10⟩, ⟨2, "B", some 20⟩]
    member_types := ⟨-1, 5, 2, -1, -1, -1⟩ }

/-- Membership oracle reporting "member" (weight 2 in `cfgTwoGroups`)
everywhere. -/
def memMember : Int → Int → ChatMemberStatus := fun _ _ => .member

/-- A backend on which `addUserToGroup` rejects for group 10 and succeeds
for every other group. -/
def backendFirstGroupFails : Backend :=
  { getUserFromId := fun uid => .error ("Entity not found: " ++ uid)
    getUsersFromTelegramId := fun _ => .ok []
    createUser := fun _ uid _ => .ok ("uuid-" ++ uid)
    addUserToGroup := fun _ gid => if gid == 10 then .error "addUserToGroup failed"
      else .ok true }

/-- C1 as stated is false on the code: the group-attachment phase runs
`Promise.all` over the domains, so with two configured domains of positive
weight where the first domain's `addUserToGroup` rejects, the combined
promise rejects with that first failure and yet the `addToGroup` call for
the second domain is still made — unlike the sequential abort-on-first-
failure processing the claim describes (`groupPhaseSeq`), under which the
second domain would never be attached. -/
theorem C1_counterexample :
    (groupPhase cfgTwoGroups memMember backendFirstGroupFails "alice" 42).2 =
      some "addUserToGroup failed" ∧
    Event.addToGroup "alice" 20 ∈
      (groupPhase cfgTwoGroups memMember backendFirstGroupFails "alice" 42).1 ∧
    Event.addToGroup "alice" 20 ∉
      (groupPhaseSeq cfgTwoGroups memMember backendFirstGroupFails "alice" 42
        cfgTwoGroups.authorized_chats).1 := by
  decide

/-- C1 amended: after a successful `createUser`, the configured trust
domains are attached concurrently via `Promise.all`: every domain's
events — in particular its `addToGroup` call — occur in the workflow's
trace regardless of failures in the other domains; the combined promise
rejects with the first failing domain's error, and that failure propagates
to the workflow's outer handler, which replies with the generic LLDAP
error message and reports the error to the admin sink (the created user is
not rolled back). -/
theorem C1_amended (cfg : TgCfg) (login_url : String) (esc : String → String)
    (mem : Int → Int → ChatMemberStatus) (backend : Backend) (user : UserInfo)
    (chatId : Int) (text cmd username email : String) (l g : Int) (n : String)
    (hpriv : auth_status cfg mem (some user) (some ⟨.privateChat, chatId⟩) =
      .privileged l g n)
    (hsplit : splitChar ' ' text = [cmd, username, email])
    (hu : usernameOk username = true) (he : emailOk email = true)
    (hid : get_user_by_id (backend.getUserFromId username) = .ok Option.none)
    (htg : get_user_by_telegram_id (backend.getUsersFromTelegramId (toString user.id)) =
      .ok Option.none)
    (hcreate : ∃ uuid, create_user (backend.createUser (toString user.id) username email) =
      .ok uuid) :
    (∀ c ∈ cfg.authorized_chats,
      (domainAttach cfg mem backend username user.id c).1 <:+:
        (groupPhase cfg mem backend username user.id).1) ∧
    ((groupPhase cfg mem backend username user.id).2 =
      cfg.authorized_chats.findSome? fun c =>
        (domainAttach cfg mem backend username user.id c).2) ∧
    (∀ e, (groupPhase cfg mem backend username user.id).2 = some e →
      ∃ tr, command_register cfg login_url esc mem backend (some user)
          (some ⟨.privateChat, chatId⟩) (some text) = (tr, .done) ∧
        Event.reply lldapErrorMsg ∈ tr ∧ Event.reportError e ∈ tr ∧
        Event.createUser (toString user.id) username email ∈ tr ∧
        ∀ c ∈ cfg.authorized_chats,
          (domainAttach cfg mem backend username user.id c).1 <:+: tr) := by
  have ha : ∀ c ∈ cfg.authorized_chats,
      (domainAttach cfg mem backend username user.id c).1 <:+:
        (groupPhase cfg mem backend username user.id).1 := by
    intro c hc
    exact List.infix_of_mem_flatten
      (List.mem_map_of_mem (fun c => (domainAttach cfg mem backend username user.id c).1) hc)
  refine ⟨ha, rfl, ?_⟩
  intro e hfail
  obtain ⟨uuid, hc⟩ := hcreate
  rw [command_register_privileged cfg login_url esc mem backend user chatId text l g n
    hpriv, hsplit]
  dsimp only
  rw [hu, he]
  rw [if_neg (by simp), if_neg (by simp)]
  unfold registerTry registerTryBody
  rw [hid, htg, hc]
  dsimp only
  rw [hfail]
  refine ⟨_, rfl, ?_, ?_, ?_, ?_⟩
  · simp
  · simp
  · simp
  · intro c hcmem
    refine (ha c hcmem).trans ?_
    exact ⟨[.lookupById username, .lookupByTelegramId (toString user.id),
      .createUser (toString user.id) username email,
      .reply (registeredMsg username login_url),
      .report (registeredReportMsg username (esc user.first_name) user.id chatId)],
      [.reply lldapErrorMsg, .reportError e], by simp⟩

/-- Witness for C1 amended: with the first domain's attachment rejecting,
registration still creates the user, the failure reaches the outer handler
(generic reply plus admin report), and both domains' attachment events are
in the trace. -/
theorem C1_amended_witness :
    ∃ tr, command_register cfgTwoGroups "url" escId memMember backendFirstGroupFails
        (some ⟨42, "x"⟩) (some ⟨.privateChat, 99⟩) (some "/register alice a@b.co") =
      (tr, .done) ∧
      Event.reply lldapErrorMsg ∈ tr ∧
      Event.reportError "addUserToGroup failed" ∈ tr ∧
      Event.createUser (toString (42 : Int)) "alice" "a@b.co" ∈ tr ∧
      ∀ c ∈ cfgTwoGroups.authorized_chats,
        (domainAttach cfgTwoGroups memMember backendFirstGroupFails "alice" 42 c).1 <:+:
          tr :=
  (C1_amended cfgTwoGroups "url" escId memMember backendFirstGroupFails ⟨42, "x"⟩ 99
    "/register alice a@b.co" "/register" "alice" "a@b.co" 2 1 "A" (by decide) (by decide)
    (by decide) (by decide) rfl rfl ⟨"uuid-alice", rfl⟩).2.2 "addUserToGroup failed" rfl

end TgLldapAuth
